import Mathlib

/-!
Verification development for the WhatsApp bulk-dispatch service in `app.py`
(repository `dvicampos/webserviceprueba`).

The Python source is shallowly embedded as executable Lean functions:

* Python dicts (`STATE["sid_to_number"]`, `STATE["delivery"]`) are association
  lists with Python assignment semantics (`setKey` replaces the value of an
  existing key in place, otherwise appends at the end — Python insertion order).
* The `phonenumbers` library, `send_one_whatsapp`, and
  `send_one_whatsapp_template` are external collaborators; they are abstract
  function parameters (`Lib`, `TextSender`, `TplSender`).  Python exceptions
  raised by a collaborator become `Except.error`, mirroring the
  `try`/`except` blocks of the source.
* `str.strip`, `str.lower`, `str.rstrip("/")`, `in` (substring test) and the
  digit filter are re-implemented on character lists so that every concrete
  instance evaluates inside the kernel.
-/

/-! ## Association lists with Python-dict semantics -/

/-- `d.get(k)`: value of the first binding of `k`, if any. -/
def getKey {α : Type} : List (String × α) → String → Option α
  | [], _ => none
  | (k', v) :: rest, k => if k' = k then some v else getKey rest k

/-- `d[k] = v`: replace the binding of `k` in place if present, else append
(Python dict insertion-order semantics). -/
def setKey {α : Type} : List (String × α) → String → α → List (String × α)
  | [], k, v => [(k, v)]
  | (k', v') :: rest, k, v =>
    if k' = k then (k, v) :: rest else (k', v') :: setKey rest k v

/-- The key set (in insertion order) of a dict. -/
def keys {α : Type} (l : List (String × α)) : List String :=
  l.map Prod.fst

/-! ## String helpers mirroring the Python primitives used by `app.py` -/

/-- `str.strip()` (whitespace at both ends). -/
def pyStrip (s : String) : String :=
  String.mk (((s.toList.dropWhile Char.isWhitespace).reverse.dropWhile
    Char.isWhitespace).reverse)

/-- `"".join(ch for ch in s if ch.isdigit())` — app.py line 59. -/
def digitsOnly (s : String) : String :=
  String.mk (s.toList.filter Char.isDigit)

/-- `str.lower()`. -/
def lowerStr (s : String) : String :=
  String.mk (s.toList.map Char.toLower)

/-- `str.upper()`. -/
def upperStr (s : String) : String :=
  String.mk (s.toList.map Char.toUpper)

/-- Does `hay` start with `needle` (on character lists)? -/
def charsStartWith : List Char → List Char → Bool
  | _, [] => true
  | [], _ :: _ => false
  | h :: t, n :: ns => h = n && charsStartWith t ns

/-- Python `needle in hay` substring test (on character lists). -/
def charsContain : List Char → List Char → Bool
  | [], needle => charsStartWith [] needle
  | h :: t, needle => charsStartWith (h :: t) needle || charsContain t needle

/-- `str.startswith(p)`. -/
def strStartsWith (s p : String) : Bool :=
  charsStartWith s.toList p.toList

/-- Python `needle in hay` on strings. -/
def pyContains (needle hay : String) : Bool :=
  charsContain hay.toList needle.toList

/-- `str.rstrip("/")`. -/
def rstripSlash (s : String) : String :=
  String.mk ((s.toList.reverse.dropWhile (fun c => c = '/')).reverse)

/-! ## Data model -/

/-- One value of `STATE["delivery"]` (a Python dict per recipient).
`status` is the value of the `"status"` key, which every stored entry carries
(`none` models Python `None` arriving from a form field).  For the remaining
fields `none` models *key absent*; for the two error fields the stored value
may itself be Python `None` (hence `Option (Option String)`): app.py writes
`prev["error_code"] = error_code` with `error_code` possibly `None`. -/
structure Entry where
  status : Option String
  sid : Option String
  channel : Option String
  template : Option String
  vars : Option (List (String × String))
  reason : Option String
  error_code : Option (Option String)
  error_message : Option (Option String)
deriving DecidableEq

/-- The `{}` default of `STATE["delivery"].get(e164, {})` (app.py line 551). -/
def blankEntry : Entry :=
  { status := none, sid := none, channel := none, template := none,
    vars := none, reason := none, error_code := none, error_message := none }

/-- Entry written by `/send-bulk` on a successful send (app.py lines 204-208). -/
def textQueuedEntry (sid : String) : Entry :=
  { blankEntry with
    status := some "queued"
    sid := some sid
    channel := some "whatsapp" }

/-- Entry written by `/send-bulk` on a failed send (app.py lines 211-215). -/
def textFailedEntry (reason : String) : Entry :=
  { blankEntry with
    status := some "failed_on_send"
    reason := some reason
    channel := some "whatsapp" }

/-- Entry written by the template endpoints on a successful send
(app.py lines 477-483). -/
def tplQueuedEntry (sid cs : String) (vs : List (String × String)) : Entry :=
  { textQueuedEntry sid with template := some cs, vars := some vs }

/-- Entry written by the template endpoints on a failed send
(app.py lines 487-493). -/
def tplFailedEntry (reason cs : String) (vs : List (String × String)) : Entry :=
  { textFailedEntry reason with template := some cs, vars := some vs }

/-- The JSON body returned by `/send-bulk` (app.py lines 217-223), which is
also stored as `STATE["last_summary"]`. -/
structure BulkSummary where
  invalid_by_lookup : List String
  queued : List String
  skipped_not_mobile : List String
  skipped_detail : List String
  note : String
deriving DecidableEq

/-- One record of the `failed_on_send` list of
`/send-template-bulk-personalizado` (app.py lines 495-499). -/
structure FailedRecord where
  numero : String
  e164 : String
  reason : String
deriving DecidableEq

/-- The JSON body returned by `/send-template-bulk-personalizado`
(app.py lines 501-510; the `received` echo of the request is elided). -/
structure TplBulkResponse where
  invalid_by_lookup : List String
  queued : List String
  failed_on_send : List FailedRecord
  skipped_not_mobile : List String
  skipped_detail : List String
  note : String
deriving DecidableEq

/-- The JSON body returned by `/report` (app.py lines 575-581). -/
structure Report where
  delivered : List String
  failed_or_undelivered : List String
  pending : List String
  raw : List (String × Entry)
  last_summary : Option BulkSummary
deriving DecidableEq

/-- The process-wide `STATE` dict (app.py lines 32-36).  The initial
`last_summary` `{}` is modelled as `none`. -/
structure AppState where
  sid_to_number : List (String × String)
  delivery : List (String × Entry)
  last_summary : Option BulkSummary
deriving DecidableEq

/-- `STATE` at process start. -/
def initState : AppState :=
  { sid_to_number := [], delivery := [], last_summary := none }

/-- One element of the `lotes` request list: `telefono` is
`str(lote.get("telefono", ""))`, `vars` is `lote.get("vars")` with a missing
or `None` value modelled as `[]` (Python falsy). -/
structure Lote where
  telefono : String
  vars : List (String × String)
deriving DecidableEq

/-- The form fields consumed by `/twilio/status` (app.py lines 544-547);
each is `request.form.get(...)`, hence optional. -/
structure StatusEvent where
  sid : Option String
  status : Option String
  error_code : Option String
  error_msg : Option String
deriving DecidableEq

/-- Python truthiness of an optional string (`None` and `""` are falsy). -/
def truthy : Option String → Bool
  | none => false
  | some s => s ≠ ""

/-! ## External collaborators (abstract parameters) -/

/-- Model of the `phonenumbers` library as used on app.py lines 64-68:
`lib s region = some e` when `phonenumbers.parse(s, region)` succeeds, the
number is possible and valid, and `e` is its E.164 formatting; `none` when
the parse raises or a validity check fails. -/
abbrev Lib := String → String → Option String

/-- `send_one_whatsapp to body status_callback_url` — returns the message sid
or the exception text (app.py lines 109-128). -/
abbrev TextSender := String → String → Option String → Except String String

/-- `send_one_whatsapp_template to content_sid content_variables
status_callback_url` (app.py lines 131-161). -/
abbrev TplSender :=
  String → String → List (String × String) → Option String →
    Except String String

/-! ## Number Normalizer (app.py lines 53-73) -/

/-- `normalize_to_e164`: strip non-digits; fail on empty; try the library;
on library failure fall back to `+52`-prefixing for 10-digit MX numbers. -/
def normalize_to_e164 (lib : Lib) (raw_number : String) (region : String) :
    Except String String :=
  let s := digitsOnly raw_number
  if s = "" then .error "Número vacío"
  else
    match lib s region with
    | some e => .ok e
    | none =>
      if upperStr region = "MX" ∧ s.length = 10 then .ok ("+52" ++ s)
      else .error ("No se pudo normalizar " ++ raw_number ++ " (region=" ++
        region ++ ")")

/-! ## Callback-URL builder (app.py lines 42-50 and 187-188) -/

/-- `valid_public_base`: the configured base when it is https and not
localhost/127.0.0.1, else `""`. -/
def valid_public_base (public_base_url : String) : String :=
  if strStartsWith (lowerStr public_base_url) "https://"
      && !(pyContains "localhost" public_base_url)
      && !(pyContains "127.0.0.1" public_base_url)
  then rstripSlash public_base_url
  else ""

/-- `f"{base}/twilio/status" if base else None` (app.py line 188). -/
def status_callback_url (public_base_url : String) : Option String :=
  let base := valid_public_base public_base_url
  if base = "" then none else some (base ++ "/twilio/status")

/-! ## Dispatch Batch Processor: `/send-bulk` (app.py lines 167-225) -/

/-- The per-item loop of `/send-bulk` (app.py lines 190-215).  Returns the
final state, the `invalid_by_lookup` list and the `queued` list, in source
order. -/
def send_bulk_go (lib : Lib) (sender : TextSender) (region body : String)
    (cb : Option String) : List String → AppState →
    AppState × List String × List String
  | [], st => (st, [], [])
  | raw :: rest, st =>
    let raw_str := pyStrip raw
    if raw_str = "" then send_bulk_go lib sender region body cb rest st
    else
      match normalize_to_e164 lib raw_str region with
      | .error e =>
        let r := send_bulk_go lib sender region body cb rest st
        (r.1, (raw_str ++ " (" ++ e ++ ")") :: r.2.1, r.2.2)
      | .ok e164 =>
        match sender e164 body cb with
        | .ok sid =>
          let st1 : AppState :=
            { st with
              sid_to_number := setKey st.sid_to_number sid e164
              delivery := setKey st.delivery e164 (textQueuedEntry sid) }
          let r := send_bulk_go lib sender region body cb rest st1
          (r.1, r.2.1, raw_str :: r.2.2)
        | .error ex =>
          let st1 : AppState :=
            { st with delivery := setKey st.delivery e164 (textFailedEntry ex) }
          let r := send_bulk_go lib sender region body cb rest st1
          r

/-- The `/send-bulk` endpoint.  `body` is the `mensaje` field, `nums` the
`telefonos` list; the result is the new state and either the 400 error text
or the 200 summary (which is also stored in `last_summary`). -/
def send_bulk (lib : Lib) (sender : TextSender) (region pub body : String)
    (nums : List String) (st : AppState) :
    AppState × Except String BulkSummary :=
  let b := pyStrip body
  if b = "" ∨ nums = [] then
    (st, .error "Proporciona mensaje y lista telefonos")
  else
    let cb := status_callback_url pub
    let r := send_bulk_go lib sender region b cb nums st
    let summary : BulkSummary :=
      { invalid_by_lookup := r.2.1, queued := r.2.2,
        skipped_not_mobile := [], skipped_detail := [],
        note := "DEBUG: /send-bulk SIN Twilio Lookup (solo normalización E.164)" }
    ({ r.1 with last_summary := some summary }, .ok summary)

/-! ## `/send-template` (app.py lines 231-345) -/

/-- The `lotes`-mode loop of `/send-template` (app.py lines 273-304);
per-item vars fall back to the batch-global ones when falsy. -/
def send_template_lotes_go (lib : Lib) (sender : TplSender)
    (region cs : String) (gvars : List (String × String)) (cb : Option String) :
    List Lote → AppState → AppState × List String × List String
  | [], st => (st, [], [])
  | lote :: rest, st =>
    let raw_str := pyStrip lote.telefono
    let vars_lote := if lote.vars = [] then gvars else lote.vars
    if raw_str = "" then send_template_lotes_go lib sender region cs gvars cb rest st
    else
      match normalize_to_e164 lib raw_str region with
      | .error e =>
        let r := send_template_lotes_go lib sender region cs gvars cb rest st
        (r.1, (raw_str ++ " (" ++ e ++ ")") :: r.2.1, r.2.2)
      | .ok e164 =>
        match sender e164 cs vars_lote cb with
        | .ok sid =>
          let st1 : AppState :=
            { st with
              sid_to_number := setKey st.sid_to_number sid e164
              delivery :=
                setKey st.delivery e164 (tplQueuedEntry sid cs vars_lote) }
          let r := send_template_lotes_go lib sender region cs gvars cb rest st1
          (r.1, r.2.1, raw_str :: r.2.2)
        | .error ex =>
          let st1 : AppState :=
            { st with delivery :=
                setKey st.delivery e164 (tplFailedEntry ex cs vars_lote) }
          send_template_lotes_go lib sender region cs gvars cb rest st1

/-- The `telefonos`-mode loop of `/send-template` (app.py lines 305-335);
every item uses the batch-global vars. -/
def send_template_nums_go (lib : Lib) (sender : TplSender)
    (region cs : String) (gvars : List (String × String)) (cb : Option String) :
    List String → AppState → AppState × List String × List String
  | [], st => (st, [], [])
  | raw :: rest, st =>
    let raw_str := pyStrip raw
    if raw_str = "" then send_template_nums_go lib sender region cs gvars cb rest st
    else
      match normalize_to_e164 lib raw_str region with
      | .error e =>
        let r := send_template_nums_go lib sender region cs gvars cb rest st
        (r.1, (raw_str ++ " (" ++ e ++ ")") :: r.2.1, r.2.2)
      | .ok e164 =>
        match sender e164 cs gvars cb with
        | .ok sid =>
          let st1 : AppState :=
            { st with
              sid_to_number := setKey st.sid_to_number sid e164
              delivery :=
                setKey st.delivery e164 (tplQueuedEntry sid cs gvars) }
          let r := send_template_nums_go lib sender region cs gvars cb rest st1
          (r.1, r.2.1, raw_str :: r.2.2)
        | .error ex =>
          let st1 : AppState :=
            { st with delivery :=
                setKey st.delivery e164 (tplFailedEntry ex cs gvars) }
          send_template_nums_go lib sender region cs gvars cb rest st1

/-- The `/send-template` endpoint: validation, mode selection, loop.  The
response body is reduced to its `(invalid_by_lookup, queued)` lists; it does
not touch `last_summary`. -/
def send_template (lib : Lib) (sender : TplSender) (region pub cs : String)
    (gvars : List (String × String)) (nums : List String) (lotes : List Lote)
    (st : AppState) : AppState × Except String (List String × List String) :=
  let content_sid := pyStrip cs
  if content_sid = "" then (st, .error "Proporciona content_sid")
  else if lotes = [] ∧ nums = [] then
    (st, .error "Proporciona lista telefonos o lotes")
  else
    let cb := status_callback_url pub
    if lotes ≠ [] then
      let r := send_template_lotes_go lib sender region content_sid gvars cb lotes st
      (r.1, .ok (r.2.1, r.2.2))
    else
      let r := send_template_nums_go lib sender region content_sid gvars cb nums st
      (r.1, .ok (r.2.1, r.2.2))

/-! ## `/send-template-bulk-personalizado` (app.py lines 424-510) -/

/-- The per-lote loop (app.py lines 460-499).  Returns the final state and
the `invalid_by_lookup`, `queued` and `failed_on_send` lists in source
order. -/
def tpl_bulk_go (lib : Lib) (sender : TplSender) (region cs : String)
    (cb : Option String) : List Lote → AppState →
    AppState × List String × List String × List FailedRecord
  | [], st => (st, [], [], [])
  | lote :: rest, st =>
    let raw_str := pyStrip lote.telefono
    let vars_lote := lote.vars
    if raw_str = "" then tpl_bulk_go lib sender region cs cb rest st
    else
      match normalize_to_e164 lib raw_str region with
      | .error e =>
        let r := tpl_bulk_go lib sender region cs cb rest st
        (r.1, (raw_str ++ " (" ++ e ++ ")") :: r.2.1, r.2.2)
      | .ok e164 =>
        match sender e164 cs vars_lote cb with
        | .ok sid =>
          let st1 : AppState :=
            { st with
              sid_to_number := setKey st.sid_to_number sid e164
              delivery :=
                setKey st.delivery e164 (tplQueuedEntry sid cs vars_lote) }
          let r := tpl_bulk_go lib sender region cs cb rest st1
          (r.1, r.2.1, raw_str :: r.2.2.1, r.2.2.2)
        | .error ex =>
          let st1 : AppState :=
            { st with delivery :=
                setKey st.delivery e164 (tplFailedEntry ex cs vars_lote) }
          let r := tpl_bulk_go lib sender region cs cb rest st1
          (r.1, r.2.1, r.2.2.1,
            { numero := raw_str, e164 := e164, reason := ex } :: r.2.2.2)

/-- The `/send-template-bulk-personalizado` endpoint. -/
def send_template_bulk_personalizado (lib : Lib) (sender : TplSender)
    (region pub cs : String) (lotes : List Lote) (st : AppState) :
    AppState × Except String TplBulkResponse :=
  let content_sid := pyStrip cs
  if content_sid = "" then (st, .error "Falta content_sid")
  else if lotes = [] then (st, .error "Falta lista lotes")
  else
    let cb := status_callback_url pub
    let r := tpl_bulk_go lib sender region content_sid cb lotes st
    (r.1, .ok
      { invalid_by_lookup := r.2.1, queued := r.2.2.1,
        failed_on_send := r.2.2.2,
        skipped_not_mobile := [], skipped_detail := [],
        note := "DEBUG DO: /send-template-bulk-personalizado SIN Twilio Lookup" })

/-! ## Delivery Ledger status reconciliation: `/twilio/status`
(app.py lines 542-558) -/

/-- `STATE["sid_to_number"].get(sid)` with `sid` itself optional
(`request.form.get` may return `None`; `dict.get(None)` is `None` here). -/
def resolve_sid (st : AppState) (sid : Option String) : Option String :=
  sid.bind (fun s => getKey st.sid_to_number s)

/-- The field updates `prev.update({"status": ..., "sid": ...})` plus the
conditional error-field writes (app.py lines 552-555): both error fields are
written exactly when `error_code or error_msg` is truthy. -/
def apply_event_fields (ev : StatusEvent) (prev : Entry) : Entry :=
  { status := ev.status, sid := ev.sid,
    channel := prev.channel, template := prev.template,
    vars := prev.vars, reason := prev.reason,
    error_code :=
      if truthy ev.error_code || truthy ev.error_msg then some ev.error_code
      else prev.error_code,
    error_message :=
      if truthy ev.error_code || truthy ev.error_msg then some ev.error_msg
      else prev.error_message }

/-- State effect of `/twilio/status`: resolve the sid; on a truthy resolution
update (or create) the ledger entry; otherwise do nothing. -/
def twilio_status (ev : StatusEvent) (st : AppState) : AppState :=
  match resolve_sid st ev.sid with
  | none => st
  | some e164 =>
    if e164 = "" then st
    else
      let prev := (getKey st.delivery e164).getD blankEntry
      { st with delivery := setKey st.delivery e164 (apply_event_fields ev prev) }

/-- The full route handler: it always answers `("", 200)` (app.py line 558). -/
def twilio_status_route (ev : StatusEvent) (st : AppState) :
    AppState × String × Nat :=
  (twilio_status ev st, "", 200)

/-! ## Report Builder: `/report` (app.py lines 561-581) -/

/-- The bucket loop (app.py lines 566-573): per entry, the if/elif/else chain
on its current status. -/
def report_go : List (String × Entry) → List String × List String × List String
  | [] => ([], [], [])
  | (e164, info) :: rest =>
    let r := report_go rest
    if info.status = some "delivered" then (e164 :: r.1, r.2.1, r.2.2)
    else if info.status = some "failed" ∨ info.status = some "undelivered" ∨
        info.status = some "failed_on_send" then (r.1, e164 :: r.2.1, r.2.2)
    else (r.1, r.2.1, e164 :: r.2.2)

/-- The `/report` endpoint: a pure projection of the state. -/
def report (st : AppState) : Report :=
  let r := report_go st.delivery
  { delivered := r.1, failed_or_undelivered := r.2.1, pending := r.2.2,
    raw := st.delivery, last_summary := st.last_summary }

/-! ## Per-item outcome functions (used to state batch isolation) -/

/-- The `invalid_by_lookup` diagnostic an item of `/send-bulk` contributes,
as a function of that item alone. -/
def bulkInvalidOf (lib : Lib) (region : String) (raw : String) : Option String :=
  let raw_str := pyStrip raw
  if raw_str = "" then none
  else
    match normalize_to_e164 lib raw_str region with
    | .error e => some (raw_str ++ " (" ++ e ++ ")")
    | .ok _ => none

/-- The `queued` element an item of `/send-bulk` contributes, as a function
of that item alone. -/
def bulkQueuedOf (lib : Lib) (sender : TextSender) (region body : String)
    (cb : Option String) (raw : String) : Option String :=
  let raw_str := pyStrip raw
  if raw_str = "" then none
  else
    match normalize_to_e164 lib raw_str region with
    | .error _ => none
    | .ok e164 =>
      match sender e164 body cb with
      | .ok _ => some raw_str
      | .error _ => none

/-- The `invalid_by_lookup` diagnostic a lote of
`/send-template-bulk-personalizado` contributes. -/
def tplInvalidOf (lib : Lib) (region : String) (lote : Lote) : Option String :=
  let raw_str := pyStrip lote.telefono
  if raw_str = "" then none
  else
    match normalize_to_e164 lib raw_str region with
    | .error e => some (raw_str ++ " (" ++ e ++ ")")
    | .ok _ => none

/-- The `queued` element a lote of `/send-template-bulk-personalizado`
contributes. -/
def tplQueuedOf (lib : Lib) (sender : TplSender) (region cs : String)
    (cb : Option String) (lote : Lote) : Option String :=
  let raw_str := pyStrip lote.telefono
  if raw_str = "" then none
  else
    match normalize_to_e164 lib raw_str region with
    | .error _ => none
    | .ok e164 =>
      match sender e164 cs lote.vars cb with
      | .ok _ => some raw_str
      | .error _ => none

/-- The `failed_on_send` record a lote of
`/send-template-bulk-personalizado` contributes. -/
def tplFailedOf (lib : Lib) (sender : TplSender) (region cs : String)
    (cb : Option String) (lote : Lote) : Option FailedRecord :=
  let raw_str := pyStrip lote.telefono
  if raw_str = "" then none
  else
    match normalize_to_e164 lib raw_str region with
    | .error _ => none
    | .ok e164 =>
      match sender e164 cs lote.vars cb with
      | .ok _ => none
      | .error ex => some { numero := raw_str, e164 := e164, reason := ex }

/-- The delivery-ledger key a lote writes (both on send success and failure),
`none` when it is skipped or fails normalization. -/
def loteKey (lib : Lib) (region : String) (lote : Lote) : Option String :=
  let raw_str := pyStrip lote.telefono
  if raw_str = "" then none
  else
    match normalize_to_e164 lib raw_str region with
    | .error _ => none
    | .ok e164 => some e164

/-! ## Reachability and the SidIndex invariant (claim C10) -/

/-- Every address stored as a value of `sid_to_number` is a key of the
delivery ledger. -/
def sidInv (idx : List (String × String)) (del : List (String × Entry)) : Prop :=
  ∀ p : String × String, p ∈ idx → p.2 ∈ keys del

/-- One request handled by the service, as a state transition. -/
inductive Step : AppState → AppState → Prop where
  | send_bulk_step (lib : Lib) (sender : TextSender) (region pub body : String)
      (nums : List String) (st : AppState) :
      Step st (send_bulk lib sender region pub body nums st).1
  | send_template_step (lib : Lib) (sender : TplSender) (region pub cs : String)
      (gvars : List (String × String)) (nums : List String) (lotes : List Lote)
      (st : AppState) :
      Step st (send_template lib sender region pub cs gvars nums lotes st).1
  | tpl_bulk_step (lib : Lib) (sender : TplSender) (region pub cs : String)
      (lotes : List Lote) (st : AppState) :
      Step st (send_template_bulk_personalizado lib sender region pub cs lotes st).1
  | status_step (ev : StatusEvent) (st : AppState) :
      Step st (twilio_status ev st)
  | report_step (st : AppState) : Step st st

/-- States reachable from process start by handling requests. -/
inductive Reachable : AppState → Prop where
  | init : Reachable initState
  | step {st st' : AppState} : Reachable st → Step st st' → Reachable st'

/-- Folding a list of status events over the state. -/
def applyEvents (evs : List StatusEvent) (st : AppState) : AppState :=
  evs.foldl (fun s ev => twilio_status ev s) st

/-! ## Concrete instances for counterexamples and witnesses -/

/-- Model of `phonenumbers` restricted to the inputs exercised below: it
validates exactly the 10-digit national numbers under region `MX`, formatting
them as `+52` plus the digits — the same value the source's MX fallback
produces, so the concrete results below do not depend on which of the two
paths the library takes. -/
def phonelibMX : Lib := fun s region =>
  if region = "MX" ∧ s.length = 10 then some ("+52" ++ s) else none

/-- A text sender that raises exactly for `+522463095291`. -/
def textSenderFailMid : TextSender := fun e164 _ _ =>
  if e164 = "+522463095291" then .error "boom" else .ok ("SID-" ++ e164)

/-- A template sender that raises exactly for `+522463095291`. -/
def tplSenderFailMid : TplSender := fun e164 _ _ _ =>
  if e164 = "+522463095291" then .error "boom" else .ok ("SID-" ++ e164)

/-- A sender that always succeeds with sid `M1`. -/
def textSenderM1 : TextSender := fun _ _ _ => .ok "M1"

/-- A sender that always raises. -/
def textSenderDown : TextSender := fun _ _ _ => .error "provider down"

/-- State after a successful `/send-bulk` for `6142249654` (sid `M1`). -/
def stAfterSend : AppState :=
  (send_bulk phonelibMX textSenderM1 "MX" "" "hola" ["6142249654"] initState).1

/-- State after a second `/send-bulk` for the same number whose send raises:
the ledger entry is now `failed_on_send` while the stale sid mapping
`M1 → +526142249654` survives. -/
def stAfterFail : AppState :=
  (send_bulk phonelibMX textSenderDown "MX" "" "hola" ["6142249654"] stAfterSend).1

/-- A late delivery callback for the stale sid `M1`. -/
def evM1Delivered : StatusEvent :=
  { sid := some "M1", status := some "delivered", error_code := none,
    error_msg := none }

/-- A status event whose sid is unknown to the process. -/
def evUnknown : StatusEvent :=
  { sid := some "M9", status := some "delivered", error_code := none,
    error_msg := none }

/-- A ledger state holding a prior error, used for the C8 witness. -/
def stWithError : AppState :=
  { sid_to_number := [("M1", "+526142249654")]
    delivery := [("+526142249654",
      { blankEntry with
        status := some "undelivered"
        sid := some "M1"
        channel := some "whatsapp"
        error_code := some (some "63016")
        error_message := some (some "old failure") })]
    last_summary := none }

/-- A follow-up event for `M1` carrying no error fields. -/
def evNoError : StatusEvent :=
  { sid := some "M1", status := some "failed", error_code := none,
    error_msg := none }

/-- A ledger state with one `failed_on_send` entry and an empty SidIndex
(C7 witness). -/
def stFailedNoSid : AppState :=
  { sid_to_number := [],
    delivery := [("+526142249654", textFailedEntry "provider down")],
    last_summary := none }

/-- The three-lote batch of the spec scenario: the sender raises for the
middle lote. -/
def loteA : Lote := { telefono := "6142249654", vars := [("1", "Ana")] }

/-- Middle lote of the scenario (its send raises). -/
def loteB : Lote := { telefono := "2463095291", vars := [("1", "Luis")] }

/-- Last lote of the scenario. -/
def loteC : Lote := { telefono := "6561234657", vars := [("1", "Eva")] }

/-! # Theorems -/

/-! ## Association-list lemmas -/

theorem getKey_setKey_self {α : Type} (l : List (String × α)) (k : String) (v : α) :
    getKey (setKey l k v) k = some v := by
  induction l with
  | nil => simp [setKey, getKey]
  | cons p rest ih =>
    obtain ⟨k', v'⟩ := p
    by_cases h : k' = k
    · simp [setKey, h, getKey]
    · simp [setKey, h, getKey, ih]

theorem getKey_setKey_ne {α : Type} (l : List (String × α)) (k q : String) (v : α)
    (h : q ≠ k) : getKey (setKey l k v) q = getKey l q := by
  induction l with
  | nil => simp [setKey, getKey, Ne.symm h]
  | cons p rest ih =>
    obtain ⟨k', v'⟩ := p
    by_cases hk : k' = k
    · subst hk
      simp [setKey, getKey, Ne.symm h]
    · simp [setKey, getKey, hk, ih]

theorem setKey_setKey_self {α : Type} (l : List (String × α)) (k : String) (v w : α) :
    setKey (setKey l k v) k w = setKey l k w := by
  induction l with
  | nil => simp [setKey]
  | cons p rest ih =>
    obtain ⟨k', v'⟩ := p
    by_cases h : k' = k
    · simp [setKey, h]
    · simp [setKey, h, ih]

theorem mem_keys_setKey {α : Type} (l : List (String × α)) (k a : String) (v : α) :
    a ∈ keys (setKey l k v) ↔ a ∈ keys l ∨ a = k := by
  induction l with
  | nil => simp [setKey, keys, eq_comm]
  | cons p rest ih =>
    obtain ⟨k', v'⟩ := p
    by_cases h : k' = k
    · subst h
      simp [setKey, keys, eq_comm]
      tauto
    · simp [setKey, h, keys] at ih ⊢
      tauto

theorem mem_setKey_elim {α : Type} (l : List (String × α)) (k : String) (v : α)
    (p : String × α) (hp : p ∈ setKey l k v) : p ∈ l ∨ p = (k, v) := by
  induction l with
  | nil => simpa [setKey] using hp
  | cons q rest ih =>
    obtain ⟨k', v'⟩ := q
    by_cases h : k' = k
    · subst h
      simp [setKey] at hp
      tauto
    · simp [setKey, h] at hp
      rcases hp with hp | hp
      · exact Or.inl (by simp [hp])
      · rcases ih hp with h1 | h1
        · exact Or.inl (by simp [h1])
        · exact Or.inr h1

/-! ## Lemmas about `/twilio/status` -/

theorem twilio_status_sid_to_number (ev : StatusEvent) (st : AppState) :
    (twilio_status ev st).sid_to_number = st.sid_to_number := by
  cases h : resolve_sid st ev.sid with
  | none => simp [twilio_status, h]
  | some e164 => by_cases he : e164 = "" <;> simp [twilio_status, h, he]

theorem twilio_status_last_summary (ev : StatusEvent) (st : AppState) :
    (twilio_status ev st).last_summary = st.last_summary := by
  cases h : resolve_sid st ev.sid with
  | none => simp [twilio_status, h]
  | some e164 => by_cases he : e164 = "" <;> simp [twilio_status, h, he]

theorem apply_event_fields_idem (ev : StatusEvent) (prev : Entry) :
    apply_event_fields ev (apply_event_fields ev prev) = apply_event_fields ev prev := by
  unfold apply_event_fields
  by_cases h : (truthy ev.error_code || truthy ev.error_msg) = true <;> simp [h]

theorem twilio_status_resolved (ev : StatusEvent) (st : AppState) (e164 : String)
    (h : resolve_sid st ev.sid = some e164) (he : ¬ e164 = "") :
    twilio_status ev st = { st with delivery := setKey st.delivery e164 (apply_event_fields ev ((getKey st.delivery e164).getD blankEntry)) } := by
  simp [twilio_status, h, he]

/-- Claim C4: applying the identical status event twice in a row leaves the
state exactly as after applying it once (overwrite semantics of
`/twilio/status`, app.py lines 542-558). -/
theorem C4_status_event_idempotent (ev : StatusEvent) (st : AppState) :
    twilio_status ev (twilio_status ev st) = twilio_status ev st := by
  cases h : resolve_sid st ev.sid with
  | none =>
    have h1 : twilio_status ev st = st := by simp [twilio_status, h]
    rw [h1, h1]
  | some e164 =>
    by_cases he : e164 = ""
    · have h1 : twilio_status ev st = st := by simp [twilio_status, h, he]
      rw [h1, h1]
    · rw [twilio_status_resolved ev st e164 h he]
      have h2 : resolve_sid { st with delivery := setKey st.delivery e164 (apply_event_fields ev ((getKey st.delivery e164).getD blankEntry)) } ev.sid = some e164 := h
      rw [twilio_status_resolved _ _ _ h2 he]
      simp [getKey_setKey_self, apply_event_fields_idem, setKey_setKey_self]

/-- Claim C5: a status event whose provider message id does not resolve
through the SidIndex leaves the whole state (ledger, SidIndex, last summary)
unchanged and is still acknowledged with status 200. -/
theorem C5_unknown_sid_noop (ev : StatusEvent) (st : AppState)
    (h : resolve_sid st ev.sid = none) :
    twilio_status_route ev st = (st, "", 200) := by
  simp [twilio_status_route, twilio_status, h]

/-- Witness for C5 at a concrete unknown-sid event on the initial state. -/
theorem C5_witness :
    resolve_sid initState evUnknown.sid = none ∧
      twilio_status_route evUnknown initState = (initState, "", 200) :=
  ⟨rfl, C5_unknown_sid_noop evUnknown initState rfl⟩

/-- Claim C8: a resolved status event carrying neither error code nor error
message leaves both prior error fields of the ledger entry untouched. -/
theorem C8_error_fields_preserved (ev : StatusEvent) (st : AppState)
    (s e164 : String) (prev : Entry)
    (hsid : ev.sid = some s)
    (hres : getKey st.sid_to_number s = some e164)
    (hne : ¬ e164 = "")
    (hec : truthy ev.error_code = false)
    (hem : truthy ev.error_msg = false)
    (hprev : getKey st.delivery e164 = some prev) :
    (getKey (twilio_status ev st).delivery e164).map
        (fun x => (x.error_code, x.error_message))
      = some (prev.error_code, prev.error_message) := by
  have h : resolve_sid st ev.sid = some e164 := by simp [resolve_sid, hsid, hres]
  simp [twilio_status, h, hne, hprev, getKey_setKey_self, apply_event_fields,
    hec, hem]

/-- Witness for C8: a `failed` event with no error fields keeps the prior
error code/message stored for `+526142249654`. -/
theorem C8_witness :
    truthy evNoError.error_code = false ∧ truthy evNoError.error_msg = false ∧
      (getKey (twilio_status evNoError stWithError).delivery "+526142249654").map
          (fun x => (x.error_code, x.error_message))
        = some (some (some "63016"), some (some "old failure")) :=
  ⟨rfl, rfl,
    C8_error_fields_preserved evNoError stWithError "M1" "+526142249654"
      { blankEntry with
        status := some "undelivered"
        sid := some "M1"
        channel := some "whatsapp"
        error_code := some (some "63016")
        error_message := some (some "old failure") }
      rfl rfl (by decide) rfl rfl rfl⟩

/-! ## Claim C2: the normalizer strips the leading plus sign -/

/-- Counterexample to C2 as stated: the input consisting of just a plus sign
does start with a plus, yet `normalize_to_e164` strips all non-digits first
(app.py line 59), leaving the empty string, and raises instead of returning
the input unchanged. -/
theorem C2_counterexample_plus_input :
    strStartsWith "+" "+" = true ∧
      normalize_to_e164 phonelibMX "+" "MX" ≠ .ok "+" := by
  refine ⟨rfl, fun hc => ?_⟩
  have hval : normalize_to_e164 phonelibMX "+" "MX" = .error "Número vacío" := rfl
  rw [hval] at hc
  exact Except.noConfusion hc

theorem digitsOnly_idem (s : String) : digitsOnly (digitsOnly s) = digitsOnly s := by
  simp [digitsOnly, List.filter_filter]

/-- Claim C2 amended: `normalize_to_e164` first removes every non-digit
character, including a leading plus sign, so its successful results on any
input coincide with those on the input's digit string; a plus-prefixed input
is never passed through verbatim on the strength of the plus sign alone
(failure messages do echo the original raw text). -/
theorem C2_amended_digits_only (lib : Lib) (raw region out : String) :
    normalize_to_e164 lib raw region = .ok out ↔
      normalize_to_e164 lib (digitsOnly raw) region = .ok out := by
  unfold normalize_to_e164
  rw [digitsOnly_idem]
  by_cases h0 : digitsOnly raw = ""
  · simp [h0]
  · cases hl : lib (digitsOnly raw) region with
    | some e => simp [h0, hl]
    | none =>
      by_cases hmx : upperStr region = "MX" ∧ (digitsOnly raw).length = 10 <;>
        simp [h0, hl, hmx]

/-! ## Claim C9: callback URL only for secure, non-local bases -/

/-- Claim C9: the dispatch path attaches a status-callback URL only when the
configured base is https (case-insensitively) and names neither `localhost`
nor `127.0.0.1`; for every other base it is omitted — shown for http, empty,
localhost and 127.0.0.1 bases concretely, together with a positive https
example. -/
theorem C9_callback_secure_only (pub : String) :
    (status_callback_url pub ≠ none →
      (strStartsWith (lowerStr pub) "https://"
        && !(pyContains "localhost" pub)
        && !(pyContains "127.0.0.1" pub)) = true)
    ∧ ((strStartsWith (lowerStr pub) "https://"
        && !(pyContains "localhost" pub)
        && !(pyContains "127.0.0.1" pub)) = false →
      status_callback_url pub = none)
    ∧ status_callback_url "" = none
    ∧ status_callback_url "http://example.com" = none
    ∧ status_callback_url "https://localhost:5000" = none
    ∧ status_callback_url "https://127.0.0.1:5000" = none
    ∧ status_callback_url "https://example.com"
        = some "https://example.com/twilio/status" := by
  refine ⟨?_, ?_, rfl, by decide, by decide, by decide, rfl⟩
  · intro hne
    by_cases hc : (strStartsWith (lowerStr pub) "https://"
        && !(pyContains "localhost" pub)
        && !(pyContains "127.0.0.1" pub)) = true
    · exact hc
    · exfalso
      apply hne
      simp [status_callback_url, valid_public_base, hc]
  · intro hc
    simp [status_callback_url, valid_public_base, hc]

/-- Witness for C9 at concrete bases: an insecure base yields no callback URL
and a secure public base yields one. -/
theorem C9_witness :
    ((strStartsWith (lowerStr "http://example.com") "https://"
        && !(pyContains "localhost" "http://example.com")
        && !(pyContains "127.0.0.1" "http://example.com")) = false
      ∧ status_callback_url "http://example.com" = none)
    ∧ (status_callback_url "https://example.com" ≠ none
      ∧ (strStartsWith (lowerStr "https://example.com") "https://"
          && !(pyContains "localhost" "https://example.com")
          && !(pyContains "127.0.0.1" "https://example.com")) = true) :=
  ⟨⟨by decide, (C9_callback_secure_only "http://example.com").2.1 (by decide)⟩,
   ⟨by decide, (C9_callback_secure_only "https://example.com").1 (by decide)⟩⟩

/-! ## Claim C6: the report partitions the ledger by status -/

theorem report_go_delivered (l : List (String × Entry)) :
    (report_go l).1 = l.filterMap
      (fun p => if p.2.status = some "delivered" then some p.1 else none) := by
  induction l with
  | nil => simp [report_go]
  | cons p rest ih =>
    obtain ⟨e164, info⟩ := p
    by_cases h1 : info.status = some "delivered"
    · simp [report_go, h1, ih]
    · by_cases h2 : info.status = some "failed" ∨ info.status = some "undelivered"
          ∨ info.status = some "failed_on_send" <;>
        simp [report_go, h1, h2, ih]

theorem report_go_failed (l : List (String × Entry)) :
    (report_go l).2.1 = l.filterMap
      (fun p => if p.2.status = some "failed" ∨ p.2.status = some "undelivered"
          ∨ p.2.status = some "failed_on_send" then some p.1 else none) := by
  induction l with
  | nil => simp [report_go]
  | cons p rest ih =>
    obtain ⟨e164, info⟩ := p
    by_cases h1 : info.status = some "delivered"
    · simp [report_go, h1, ih]
    · by_cases h2 : info.status = some "failed" ∨ info.status = some "undelivered"
          ∨ info.status = some "failed_on_send" <;>
        simp [report_go, h1, h2, ih]

theorem report_go_pending (l : List (String × Entry)) :
    (report_go l).2.2 = l.filterMap
      (fun p => if ¬ p.2.status = some "delivered"
          ∧ ¬ (p.2.status = some "failed" ∨ p.2.status = some "undelivered"
            ∨ p.2.status = some "failed_on_send") then some p.1 else none) := by
  induction l with
  | nil => simp [report_go]
  | cons p rest ih =>
    obtain ⟨e164, info⟩ := p
    by_cases h1 : info.status = some "delivered"
    · have hf : (fun p : String × Entry =>
          if ¬ p.2.status = some "delivered"
            ∧ ¬ (p.2.status = some "failed" ∨ p.2.status = some "undelivered"
              ∨ p.2.status = some "failed_on_send") then some p.1 else none)
          (e164, info) = none := by simp [h1]
      simp only [List.filterMap_cons, hf]
      simp [report_go, h1, ih]
    · by_cases h2 : info.status = some "failed" ∨ info.status = some "undelivered"
          ∨ info.status = some "failed_on_send"
      · have hf : (fun p : String × Entry =>
            if ¬ p.2.status = some "delivered"
              ∧ ¬ (p.2.status = some "failed" ∨ p.2.status = some "undelivered"
                ∨ p.2.status = some "failed_on_send") then some p.1 else none)
            (e164, info) = none := by simp [h1, h2]
        simp only [List.filterMap_cons, hf]
        simp [report_go, h1, h2, ih]
      · have hf : (fun p : String × Entry =>
            if ¬ p.2.status = some "delivered"
              ∧ ¬ (p.2.status = some "failed" ∨ p.2.status = some "undelivered"
                ∨ p.2.status = some "failed_on_send") then some p.1 else none)
            (e164, info) = some e164 := by simp [h1, h2]
        simp only [List.filterMap_cons, hf]
        simp [report_go, h1, h2, ih]

theorem report_go_length (l : List (String × Entry)) :
    (report_go l).1.length + (report_go l).2.1.length + (report_go l).2.2.length
      = l.length := by
  induction l with
  | nil => simp [report_go]
  | cons p rest ih =>
    obtain ⟨e164, info⟩ := p
    by_cases h1 : info.status = some "delivered"
    · simp [report_go, h1]
      omega
    · by_cases h2 : info.status = some "failed" ∨ info.status = some "undelivered"
          ∨ info.status = some "failed_on_send" <;>
        · simp [report_go, h1, h2]
          omega

/-- Claim C6: `/report` places each ledger entry in exactly one bucket —
`delivered` iff its status is `delivered`; `failed_or_undelivered` iff its
status is `failed`, `undelivered` or `failed_on_send`; `pending` otherwise —
the three bucket sizes sum to the ledger size, and the call returns the
ledger and last summary unchanged (it is a pure projection of the state). -/
theorem C6_report_partition (st : AppState) :
    (report st).delivered = st.delivery.filterMap
      (fun p => if p.2.status = some "delivered" then some p.1 else none)
    ∧ (report st).failed_or_undelivered = st.delivery.filterMap
      (fun p => if p.2.status = some "failed" ∨ p.2.status = some "undelivered"
          ∨ p.2.status = some "failed_on_send" then some p.1 else none)
    ∧ (report st).pending = st.delivery.filterMap
      (fun p => if ¬ p.2.status = some "delivered"
          ∧ ¬ (p.2.status = some "failed" ∨ p.2.status = some "undelivered"
            ∨ p.2.status = some "failed_on_send") then some p.1 else none)
    ∧ (report st).delivered.length + (report st).failed_or_undelivered.length
        + (report st).pending.length = st.delivery.length
    ∧ (report st).raw = st.delivery
    ∧ (report st).last_summary = st.last_summary :=
  ⟨report_go_delivered st.delivery, report_go_failed st.delivery,
    report_go_pending st.delivery, report_go_length st.delivery, rfl, rfl⟩

/-! ## Claim C3: batch isolation of the dispatch loops -/

theorem send_bulk_go_invalid (lib : Lib) (sender : TextSender)
    (region body : String) (cb : Option String) (nums : List String)
    (st : AppState) :
    (send_bulk_go lib sender region body cb nums st).2.1
      = nums.filterMap (bulkInvalidOf lib region) := by
  induction nums generalizing st with
  | nil => simp [send_bulk_go]
  | cons raw rest ih =>
    by_cases h0 : pyStrip raw = ""
    · simp [send_bulk_go, bulkInvalidOf, h0, ih]
    · cases hn : normalize_to_e164 lib (pyStrip raw) region with
      | error e => simp [send_bulk_go, bulkInvalidOf, h0, hn, ih]
      | ok e164 =>
        cases hs : sender e164 body cb with
        | ok sid => simp [send_bulk_go, bulkInvalidOf, h0, hn, hs, ih]
        | error ex => simp [send_bulk_go, bulkInvalidOf, h0, hn, hs, ih]

theorem send_bulk_go_queued (lib : Lib) (sender : TextSender)
    (region body : String) (cb : Option String) (nums : List String)
    (st : AppState) :
    (send_bulk_go lib sender region body cb nums st).2.2
      = nums.filterMap (bulkQueuedOf lib sender region body cb) := by
  induction nums generalizing st with
  | nil => simp [send_bulk_go]
  | cons raw rest ih =>
    by_cases h0 : pyStrip raw = ""
    · simp [send_bulk_go, bulkQueuedOf, h0, ih]
    · cases hn : normalize_to_e164 lib (pyStrip raw) region with
      | error e => simp [send_bulk_go, bulkQueuedOf, h0, hn, ih]
      | ok e164 =>
        cases hs : sender e164 body cb with
        | ok sid => simp [send_bulk_go, bulkQueuedOf, h0, hn, hs, ih]
        | error ex => simp [send_bulk_go, bulkQueuedOf, h0, hn, hs, ih]

theorem tpl_bulk_go_invalid (lib : Lib) (sender : TplSender) (region cs : String)
    (cb : Option String) (lotes : List Lote) (st : AppState) :
    (tpl_bulk_go lib sender region cs cb lotes st).2.1
      = lotes.filterMap (tplInvalidOf lib region) := by
  induction lotes generalizing st with
  | nil => simp [tpl_bulk_go]
  | cons lote rest ih =>
    by_cases h0 : pyStrip lote.telefono = ""
    · simp [tpl_bulk_go, tplInvalidOf, h0, ih]
    · cases hn : normalize_to_e164 lib (pyStrip lote.telefono) region with
      | error e => simp [tpl_bulk_go, tplInvalidOf, h0, hn, ih]
      | ok e164 =>
        cases hs : sender e164 cs lote.vars cb with
        | ok sid => simp [tpl_bulk_go, tplInvalidOf, h0, hn, hs, ih]
        | error ex => simp [tpl_bulk_go, tplInvalidOf, h0, hn, hs, ih]

theorem tpl_bulk_go_queued (lib : Lib) (sender : TplSender) (region cs : String)
    (cb : Option String) (lotes : List Lote) (st : AppState) :
    (tpl_bulk_go lib sender region cs cb lotes st).2.2.1
      = lotes.filterMap (tplQueuedOf lib sender region cs cb) := by
  induction lotes generalizing st with
  | nil => simp [tpl_bulk_go]
  | cons lote rest ih =>
    by_cases h0 : pyStrip lote.telefono = ""
    · simp [tpl_bulk_go, tplQueuedOf, h0, ih]
    · cases hn : normalize_to_e164 lib (pyStrip lote.telefono) region with
      | error e => simp [tpl_bulk_go, tplQueuedOf, h0, hn, ih]
      | ok e164 =>
        cases hs : sender e164 cs lote.vars cb with
        | ok sid => simp [tpl_bulk_go, tplQueuedOf, h0, hn, hs, ih]
        | error ex => simp [tpl_bulk_go, tplQueuedOf, h0, hn, hs, ih]

theorem tpl_bulk_go_failed (lib : Lib) (sender : TplSender) (region cs : String)
    (cb : Option String) (lotes : List Lote) (st : AppState) :
    (tpl_bulk_go lib sender region cs cb lotes st).2.2.2
      = lotes.filterMap (tplFailedOf lib sender region cs cb) := by
  induction lotes generalizing st with
  | nil => simp [tpl_bulk_go]
  | cons lote rest ih =>
    by_cases h0 : pyStrip lote.telefono = ""
    · simp [tpl_bulk_go, tplFailedOf, h0, ih]
    · cases hn : normalize_to_e164 lib (pyStrip lote.telefono) region with
      | error e => simp [tpl_bulk_go, tplFailedOf, h0, hn, ih]
      | ok e164 =>
        cases hs : sender e164 cs lote.vars cb with
        | ok sid => simp [tpl_bulk_go, tplFailedOf, h0, hn, hs, ih]
        | error ex => simp [tpl_bulk_go, tplFailedOf, h0, hn, hs, ih]

/-- Claim C3: in both bulk loops every reported outcome list equals the
item-wise map of a function of that item alone — an exception from the send
call is recorded as that item's own outcome, never escapes the loop, and
items after a failing item are normalized, sent and reported exactly as they
would be in any other state. -/
theorem C3_batch_isolation (lib : Lib) (txts : TextSender) (tpls : TplSender)
    (region body cs : String) (cb : Option String) (nums : List String)
    (lotes : List Lote) (stA stB : AppState) :
    (send_bulk_go lib txts region body cb nums stA).2.1
        = nums.filterMap (bulkInvalidOf lib region)
    ∧ (send_bulk_go lib txts region body cb nums stA).2.2
        = nums.filterMap (bulkQueuedOf lib txts region body cb)
    ∧ (tpl_bulk_go lib tpls region cs cb lotes stB).2.1
        = lotes.filterMap (tplInvalidOf lib region)
    ∧ (tpl_bulk_go lib tpls region cs cb lotes stB).2.2.1
        = lotes.filterMap (tplQueuedOf lib tpls region cs cb)
    ∧ (tpl_bulk_go lib tpls region cs cb lotes stB).2.2.2
        = lotes.filterMap (tplFailedOf lib tpls region cs cb) :=
  ⟨send_bulk_go_invalid lib txts region body cb nums stA,
    send_bulk_go_queued lib txts region body cb nums stA,
    tpl_bulk_go_invalid lib tpls region cs cb lotes stB,
    tpl_bulk_go_queued lib tpls region cs cb lotes stB,
    tpl_bulk_go_failed lib tpls region cs cb lotes stB⟩

/-! ## Claim C7: is `failed_on_send` terminal? -/

/-- Counterexample to C7 as stated: after a successful send (sid `M1`) and a
later failed send to the same number, the ledger entry is `failed_on_send`,
yet the stale SidIndex mapping `M1 → +526142249654` lets a late `delivered`
status event overwrite the status — the state is reachable through two
`/send-bulk` requests. -/
theorem C7_counterexample_stale_sid :
    Reachable stAfterFail
    ∧ (getKey stAfterFail.delivery "+526142249654").map Entry.status
        = some (some "failed_on_send")
    ∧ (getKey (twilio_status evM1Delivered stAfterFail).delivery
          "+526142249654").map Entry.status
        = some (some "delivered") := by
  refine ⟨?_, rfl, rfl⟩
  exact Reachable.step
    (Reachable.step Reachable.init
      (Step.send_bulk_step phonelibMX textSenderM1 "MX" "" "hola"
        ["6142249654"] initState))
    (Step.send_bulk_step phonelibMX textSenderDown "MX" "" "hola"
      ["6142249654"] stAfterSend)

theorem twilio_status_delivery_frame (ev : StatusEvent) (st : AppState)
    (addr : String)
    (h : ∀ s a, getKey st.sid_to_number s = some a → a ≠ addr) :
    getKey (twilio_status ev st).delivery addr = getKey st.delivery addr := by
  cases hres : resolve_sid st ev.sid with
  | none => simp [twilio_status, hres]
  | some e164 =>
    by_cases he : e164 = ""
    · simp [twilio_status, hres, he]
    · have hne : addr ≠ e164 := by
        cases hsid : ev.sid with
        | none => rw [hsid] at hres; simp [resolve_sid] at hres
        | some s =>
          rw [hsid] at hres
          simp [resolve_sid] at hres
          exact Ne.symm (h s e164 hres)
      rw [twilio_status_resolved ev st e164 hres he]
      exact getKey_setKey_ne st.delivery e164 addr _ hne

/-- Claim C7 amended: a `failed_on_send` ledger entry is untouched by every
sequence of status events *provided no SidIndex entry maps to its address*
(in particular when the address was never successfully sent); as the
counterexample shows, a stale sid from an earlier successful send to the same
address can still overwrite the status. -/
theorem C7_amended_failed_on_send_terminal (st : AppState) (addr : String)
    (evs : List StatusEvent)
    (hidx : ∀ s a, getKey st.sid_to_number s = some a → a ≠ addr)
    (hfail : (getKey st.delivery addr).map Entry.status
      = some (some "failed_on_send")) :
    getKey (applyEvents evs st).delivery addr = getKey st.delivery addr
    ∧ (getKey (applyEvents evs st).delivery addr).map Entry.status
        = some (some "failed_on_send") := by
  have main : ∀ (l : List StatusEvent) (s0 : AppState),
      (∀ s a, getKey s0.sid_to_number s = some a → a ≠ addr) →
      getKey (applyEvents l s0).delivery addr = getKey s0.delivery addr := by
    intro l
    induction l with
    | nil => intro s0 _; rfl
    | cons ev rest ih =>
      intro s0 h0
      have hidx2 : ∀ s a,
          getKey (twilio_status ev s0).sid_to_number s = some a → a ≠ addr := by
        intro s a ha
        exact h0 s a (by rwa [twilio_status_sid_to_number] at ha)
      calc getKey (applyEvents (ev :: rest) s0).delivery addr
          = getKey (applyEvents rest (twilio_status ev s0)).delivery addr := rfl
        _ = getKey (twilio_status ev s0).delivery addr := ih _ hidx2
        _ = getKey s0.delivery addr := twilio_status_delivery_frame ev s0 addr h0
  refine ⟨main evs st hidx, ?_⟩
  rw [main evs st hidx]
  exact hfail

/-- Witness for amended C7: with an empty SidIndex, a `delivered` event for
an unrelated sid leaves the `failed_on_send` entry unchanged. -/
theorem C7_witness :
    (getKey stFailedNoSid.delivery "+526142249654").map Entry.status
        = some (some "failed_on_send")
    ∧ getKey (applyEvents [evM1Delivered] stFailedNoSid).delivery "+526142249654"
        = getKey stFailedNoSid.delivery "+526142249654"
    ∧ (getKey (applyEvents [evM1Delivered] stFailedNoSid).delivery
          "+526142249654").map Entry.status = some (some "failed_on_send") := by
  have h := C7_amended_failed_on_send_terminal stFailedNoSid "+526142249654"
    [evM1Delivered] (fun s a ha => by simp [stFailedNoSid, getKey] at ha) rfl
  exact ⟨rfl, h.1, h.2⟩

/-! ## Claim C1: send-rejection records in the batch response -/

theorem tpl_bulk_go_state_append (lib : Lib) (sender : TplSender)
    (region cs : String) (cb : Option String) (l1 l2 : List Lote)
    (st : AppState) :
    (tpl_bulk_go lib sender region cs cb (l1 ++ l2) st).1
      = (tpl_bulk_go lib sender region cs cb l2
          (tpl_bulk_go lib sender region cs cb l1 st).1).1 := by
  induction l1 generalizing st with
  | nil => simp [tpl_bulk_go]
  | cons lote rest ih =>
    by_cases h0 : pyStrip lote.telefono = ""
    · simp [tpl_bulk_go, h0, ih]
    · cases hn : normalize_to_e164 lib (pyStrip lote.telefono) region with
      | error e => simp [tpl_bulk_go, h0, hn, ih]
      | ok e164 =>
        cases hs : sender e164 cs lote.vars cb with
        | ok sid => simp [tpl_bulk_go, h0, hn, hs, ih]
        | error ex => simp [tpl_bulk_go, h0, hn, hs, ih]

theorem tpl_bulk_go_delivery_frame (lib : Lib) (sender : TplSender)
    (region cs : String) (cb : Option String) (l : List Lote) (st : AppState)
    (k : String) (h : ∀ y ∈ l, loteKey lib region y ≠ some k) :
    getKey (tpl_bulk_go lib sender region cs cb l st).1.delivery k
      = getKey st.delivery k := by
  induction l generalizing st with
  | nil => rfl
  | cons lote rest ih =>
    have hlote := h lote (by simp)
    have hrest : ∀ y ∈ rest, loteKey lib region y ≠ some k :=
      fun y hy => h y (by simp [hy])
    by_cases h0 : pyStrip lote.telefono = ""
    · simp only [tpl_bulk_go, h0, if_true, reduceIte]
      exact ih st hrest
    · cases hn : normalize_to_e164 lib (pyStrip lote.telefono) region with
      | error e =>
        simp only [tpl_bulk_go, h0, reduceIte, hn]
        exact ih st hrest
      | ok e164 =>
        have hke : e164 ≠ k := by
          intro hk
          exact hlote (by simp [loteKey, h0, hn, hk])
        cases hs : sender e164 cs lote.vars cb with
        | ok sid =>
          simp only [tpl_bulk_go, h0, reduceIte, hn, hs]
          rw [ih _ hrest]
          exact getKey_setKey_ne st.delivery e164 k _ (Ne.symm hke)
        | error ex =>
          simp only [tpl_bulk_go, h0, reduceIte, hn, hs]
          rw [ih _ hrest]
          exact getKey_setKey_ne st.delivery e164 k _ (Ne.symm hke)

/-- Counterexample to C1 as stated: for `/send-bulk` with a 3-item batch
whose second send raises, the ledger is marked `failed_on_send` for the
second address and the other two raws are in `queued`, but the full response
returned to the caller is exactly the summary shown — it carries no
send-rejection record (no field holds the raw input `2463095291`, the
address `+522463095291` or the reason `boom`). -/
theorem C1_counterexample_send_bulk_response :
    (send_bulk phonelibMX textSenderFailMid "MX" "" "hola"
        ["6142249654", "2463095291", "6561234657"] initState).2
      = .ok
        { invalid_by_lookup := []
          queued := ["6142249654", "6561234657"]
          skipped_not_mobile := []
          skipped_detail := []
          note := "DEBUG: /send-bulk SIN Twilio Lookup (solo normalización E.164)" }
    ∧ getKey (send_bulk phonelibMX textSenderFailMid "MX" "" "hola"
        ["6142249654", "2463095291", "6561234657"] initState).1.delivery
        "+522463095291"
      = some (textFailedEntry "boom") :=
  ⟨rfl, rfl⟩

/-- Claim C1 amended: the guarantee holds for
`/send-template-bulk-personalizado` (the endpoint that reports rejection
records): when the sender raises for an item that normalized to `e164`, the
response's `failed_on_send` list carries exactly that item's record (raw
input, canonical address, failure reason) in batch position, its ledger entry
is `failed_on_send` (provided no later item writes the same address), and the
queued list still lists exactly the other items' successes.  For `/send-bulk`
the ledger and queued-list parts hold, but the response carries no rejection
record (see the counterexample). -/
theorem C1_amended_personalizado (lib : Lib) (sender : TplSender)
    (region pub cs : String) (l1 l2 : List Lote) (x : Lote) (st : AppState)
    (e164 r : String)
    (hcs : ¬ pyStrip cs = "")
    (hx : ¬ pyStrip x.telefono = "")
    (hn : normalize_to_e164 lib (pyStrip x.telefono) region = .ok e164)
    (hs : sender e164 (pyStrip cs) x.vars (status_callback_url pub) = .error r)
    (hl2 : ∀ y ∈ l2, loteKey lib region y ≠ some e164) :
    (send_template_bulk_personalizado lib sender region pub cs (l1 ++ x :: l2)
          st).2.map TplBulkResponse.failed_on_send
      = .ok (l1.filterMap
            (tplFailedOf lib sender region (pyStrip cs) (status_callback_url pub))
          ++ { numero := pyStrip x.telefono, e164 := e164, reason := r }
            :: l2.filterMap
              (tplFailedOf lib sender region (pyStrip cs) (status_callback_url pub)))
    ∧ (send_template_bulk_personalizado lib sender region pub cs (l1 ++ x :: l2)
          st).2.map TplBulkResponse.queued
      = .ok ((l1 ++ l2).filterMap
          (tplQueuedOf lib sender region (pyStrip cs) (status_callback_url pub)))
    ∧ getKey (send_template_bulk_personalizado lib sender region pub cs
          (l1 ++ x :: l2) st).1.delivery e164
      = some (tplFailedEntry r (pyStrip cs) x.vars) := by
  have hne : ¬ (l1 ++ x :: l2 = []) := by simp
  have hxf : tplFailedOf lib sender region (pyStrip cs) (status_callback_url pub) x
      = some { numero := pyStrip x.telefono, e164 := e164, reason := r } := by
    simp [tplFailedOf, hx, hn, hs]
  have hxq : tplQueuedOf lib sender region (pyStrip cs) (status_callback_url pub) x
      = none := by
    simp [tplQueuedOf, hx, hn, hs]
  refine ⟨?_, ?_, ?_⟩
  · simp only [send_template_bulk_personalizado, hcs, hne, reduceIte, Except.map]
    rw [tpl_bulk_go_failed, List.filterMap_append]
    simp only [List.filterMap_cons, hxf]
  · simp only [send_template_bulk_personalizado, hcs, hne, reduceIte, Except.map]
    rw [tpl_bulk_go_queued, List.filterMap_append, List.filterMap_append]
    simp only [List.filterMap_cons, hxq]
  · simp only [send_template_bulk_personalizado, hcs, hne, reduceIte]
    rw [tpl_bulk_go_state_append]
    have hstep : (tpl_bulk_go lib sender region (pyStrip cs)
          (status_callback_url pub) (x :: l2)
          (tpl_bulk_go lib sender region (pyStrip cs) (status_callback_url pub)
            l1 st).1).1
        = (tpl_bulk_go lib sender region (pyStrip cs) (status_callback_url pub)
            l2
            { (tpl_bulk_go lib sender region (pyStrip cs)
                (status_callback_url pub) l1 st).1 with
              delivery := setKey (tpl_bulk_go lib sender region (pyStrip cs)
                  (status_callback_url pub) l1 st).1.delivery e164
                (tplFailedEntry r (pyStrip cs) x.vars) }).1 := by
      simp [tpl_bulk_go, hx, hn, hs]
    rw [hstep, tpl_bulk_go_delivery_frame lib sender region (pyStrip cs)
      (status_callback_url pub) l2 _ e164 hl2]
    exact getKey_setKey_self _ e164 _

/-- Witness for amended C1 at the spec's 3-item scenario: the sender raises
for the middle lote `2463095291`; the response carries exactly one rejection
record for it, the other two lotes are queued, and its ledger entry is
`failed_on_send`. -/
theorem C1_witness :
    (¬ pyStrip "HX123" = "") ∧ (¬ pyStrip loteB.telefono = "")
    ∧ normalize_to_e164 phonelibMX (pyStrip loteB.telefono) "MX"
        = .ok "+522463095291"
    ∧ ((send_template_bulk_personalizado phonelibMX tplSenderFailMid "MX" ""
          "HX123" ([loteA] ++ loteB :: [loteC]) initState).2.map
            TplBulkResponse.failed_on_send
        = .ok ([loteA].filterMap (tplFailedOf phonelibMX tplSenderFailMid "MX"
              (pyStrip "HX123") (status_callback_url ""))
            ++ { numero := pyStrip loteB.telefono, e164 := "+522463095291",
                 reason := "boom" }
              :: [loteC].filterMap (tplFailedOf phonelibMX tplSenderFailMid "MX"
                (pyStrip "HX123") (status_callback_url "")))
      ∧ (send_template_bulk_personalizado phonelibMX tplSenderFailMid "MX" ""
            "HX123" ([loteA] ++ loteB :: [loteC]) initState).2.map
              TplBulkResponse.queued
        = .ok (([loteA] ++ [loteC]).filterMap (tplQueuedOf phonelibMX
            tplSenderFailMid "MX" (pyStrip "HX123") (status_callback_url "")))
      ∧ getKey (send_template_bulk_personalizado phonelibMX tplSenderFailMid
            "MX" "" "HX123" ([loteA] ++ loteB :: [loteC]) initState).1.delivery
            "+522463095291"
        = some (tplFailedEntry "boom" (pyStrip "HX123") loteB.vars)) :=
  ⟨by decide, by decide, rfl,
    C1_amended_personalizado phonelibMX tplSenderFailMid "MX" "" "HX123"
      [loteA] [loteC] loteB initState "+522463095291" "boom"
      (by decide) (by decide) rfl rfl (by decide)⟩

/-! ## Claim C10: SidIndex values are always ledger keys -/

theorem keys_setKey_mono {α : Type} (l : List (String × α)) (k a : String)
    (v : α) (h : a ∈ keys l) : a ∈ keys (setKey l k v) :=
  (mem_keys_setKey l k a v).mpr (Or.inl h)

theorem mem_keys_setKey_self {α : Type} (l : List (String × α)) (k : String)
    (v : α) : k ∈ keys (setKey l k v) :=
  (mem_keys_setKey l k k v).mpr (Or.inr rfl)

theorem sidInv_setKey_del (idx : List (String × String))
    (del : List (String × Entry)) (k : String) (v : Entry)
    (h : sidInv idx del) : sidInv idx (setKey del k v) :=
  fun p hp => keys_setKey_mono del k p.2 v (h p hp)

theorem sidInv_setKey_both (idx : List (String × String))
    (del : List (String × Entry)) (sid e164 : String) (v : Entry)
    (h : sidInv idx del) : sidInv (setKey idx sid e164) (setKey del e164 v) := by
  intro p hp
  rcases mem_setKey_elim idx sid e164 p hp with h1 | h1
  · exact keys_setKey_mono del e164 p.2 v (h p h1)
  · rw [h1]
    exact mem_keys_setKey_self del e164 v

theorem send_bulk_go_sidInv (lib : Lib) (sender : TextSender)
    (region body : String) (cb : Option String) (nums : List String)
    (st : AppState) (h : sidInv st.sid_to_number st.delivery) :
    sidInv (send_bulk_go lib sender region body cb nums st).1.sid_to_number
      (send_bulk_go lib sender region body cb nums st).1.delivery := by
  induction nums generalizing st with
  | nil => exact h
  | cons raw rest ih =>
    by_cases h0 : pyStrip raw = ""
    · simp only [send_bulk_go, h0, reduceIte]
      exact ih st h
    · cases hn : normalize_to_e164 lib (pyStrip raw) region with
      | error e =>
        simp only [send_bulk_go, h0, reduceIte, hn]
        exact ih st h
      | ok e164 =>
        cases hs : sender e164 body cb with
        | ok sid =>
          simp only [send_bulk_go, h0, reduceIte, hn, hs]
          exact ih _ (sidInv_setKey_both _ _ _ _ _ h)
        | error ex =>
          simp only [send_bulk_go, h0, reduceIte, hn, hs]
          exact ih _ (sidInv_setKey_del _ _ _ _ h)

theorem send_template_lotes_go_sidInv (lib : Lib) (sender : TplSender)
    (region cs : String) (gvars : List (String × String)) (cb : Option String)
    (lotes : List Lote) (st : AppState)
    (h : sidInv st.sid_to_number st.delivery) :
    sidInv (send_template_lotes_go lib sender region cs gvars cb lotes
        st).1.sid_to_number
      (send_template_lotes_go lib sender region cs gvars cb lotes
        st).1.delivery := by
  induction lotes generalizing st with
  | nil => exact h
  | cons lote rest ih =>
    by_cases h0 : pyStrip lote.telefono = ""
    · simp only [send_template_lotes_go, h0, reduceIte]
      exact ih st h
    · cases hn : normalize_to_e164 lib (pyStrip lote.telefono) region with
      | error e =>
        simp only [send_template_lotes_go, h0, reduceIte, hn]
        exact ih st h
      | ok e164 =>
        cases hs : sender e164 cs (if lote.vars = [] then gvars else lote.vars)
            cb with
        | ok sid =>
          simp only [send_template_lotes_go, h0, reduceIte, hn, hs]
          exact ih _ (sidInv_setKey_both _ _ _ _ _ h)
        | error ex =>
          simp only [send_template_lotes_go, h0, reduceIte, hn, hs]
          exact ih _ (sidInv_setKey_del _ _ _ _ h)

theorem send_template_nums_go_sidInv (lib : Lib) (sender : TplSender)
    (region cs : String) (gvars : List (String × String)) (cb : Option String)
    (nums : List String) (st : AppState)
    (h : sidInv st.sid_to_number st.delivery) :
    sidInv (send_template_nums_go lib sender region cs gvars cb nums
        st).1.sid_to_number
      (send_template_nums_go lib sender region cs gvars cb nums
        st).1.delivery := by
  induction nums generalizing st with
  | nil => exact h
  | cons raw rest ih =>
    by_cases h0 : pyStrip raw = ""
    · simp only [send_template_nums_go, h0, reduceIte]
      exact ih st h
    · cases hn : normalize_to_e164 lib (pyStrip raw) region with
      | error e =>
        simp only [send_template_nums_go, h0, reduceIte, hn]
        exact ih st h
      | ok e164 =>
        cases hs : sender e164 cs gvars cb with
        | ok sid =>
          simp only [send_template_nums_go, h0, reduceIte, hn, hs]
          exact ih _ (sidInv_setKey_both _ _ _ _ _ h)
        | error ex =>
          simp only [send_template_nums_go, h0, reduceIte, hn, hs]
          exact ih _ (sidInv_setKey_del _ _ _ _ h)

theorem tpl_bulk_go_sidInv (lib : Lib) (sender : TplSender) (region cs : String)
    (cb : Option String) (lotes : List Lote) (st : AppState)
    (h : sidInv st.sid_to_number st.delivery) :
    sidInv (tpl_bulk_go lib sender region cs cb lotes st).1.sid_to_number
      (tpl_bulk_go lib sender region cs cb lotes st).1.delivery := by
  induction lotes generalizing st with
  | nil => exact h
  | cons lote rest ih =>
    by_cases h0 : pyStrip lote.telefono = ""
    · simp only [tpl_bulk_go, h0, reduceIte]
      exact ih st h
    · cases hn : normalize_to_e164 lib (pyStrip lote.telefono) region with
      | error e =>
        simp only [tpl_bulk_go, h0, reduceIte, hn]
        exact ih st h
      | ok e164 =>
        cases hs : sender e164 cs lote.vars cb with
        | ok sid =>
          simp only [tpl_bulk_go, h0, reduceIte, hn, hs]
          exact ih _ (sidInv_setKey_both _ _ _ _ _ h)
        | error ex =>
          simp only [tpl_bulk_go, h0, reduceIte, hn, hs]
          exact ih _ (sidInv_setKey_del _ _ _ _ h)

theorem twilio_status_sidInv (ev : StatusEvent) (st : AppState)
    (h : sidInv st.sid_to_number st.delivery) :
    sidInv (twilio_status ev st).sid_to_number (twilio_status ev st).delivery := by
  cases hres : resolve_sid st ev.sid with
  | none => simpa [twilio_status, hres] using h
  | some e164 =>
    by_cases he : e164 = ""
    · simpa [twilio_status, hres, he] using h
    · rw [twilio_status_resolved ev st e164 hres he]
      intro p hp
      exact keys_setKey_mono _ _ _ _ (h p hp)

theorem send_bulk_go_keys_mono (lib : Lib) (sender : TextSender)
    (region body : String) (cb : Option String) (nums : List String)
    (st : AppState) (k : String) (h : k ∈ keys st.delivery) :
    k ∈ keys (send_bulk_go lib sender region body cb nums st).1.delivery := by
  induction nums generalizing st with
  | nil => exact h
  | cons raw rest ih =>
    by_cases h0 : pyStrip raw = ""
    · simp only [send_bulk_go, h0, reduceIte]
      exact ih st h
    · cases hn : normalize_to_e164 lib (pyStrip raw) region with
      | error e =>
        simp only [send_bulk_go, h0, reduceIte, hn]
        exact ih st h
      | ok e164 =>
        cases hs : sender e164 body cb with
        | ok sid =>
          simp only [send_bulk_go, h0, reduceIte, hn, hs]
          exact ih _ (keys_setKey_mono _ _ _ _ h)
        | error ex =>
          simp only [send_bulk_go, h0, reduceIte, hn, hs]
          exact ih _ (keys_setKey_mono _ _ _ _ h)

theorem send_template_lotes_go_keys_mono (lib : Lib) (sender : TplSender)
    (region cs : String) (gvars : List (String × String)) (cb : Option String)
    (lotes : List Lote) (st : AppState) (k : String)
    (h : k ∈ keys st.delivery) :
    k ∈ keys (send_template_lotes_go lib sender region cs gvars cb lotes
        st).1.delivery := by
  induction lotes generalizing st with
  | nil => exact h
  | cons lote rest ih =>
    by_cases h0 : pyStrip lote.telefono = ""
    · simp only [send_template_lotes_go, h0, reduceIte]
      exact ih st h
    · cases hn : normalize_to_e164 lib (pyStrip lote.telefono) region with
      | error e =>
        simp only [send_template_lotes_go, h0, reduceIte, hn]
        exact ih st h
      | ok e164 =>
        cases hs : sender e164 cs (if lote.vars = [] then gvars else lote.vars)
            cb with
        | ok sid =>
          simp only [send_template_lotes_go, h0, reduceIte, hn, hs]
          exact ih _ (keys_setKey_mono _ _ _ _ h)
        | error ex =>
          simp only [send_template_lotes_go, h0, reduceIte, hn, hs]
          exact ih _ (keys_setKey_mono _ _ _ _ h)

theorem send_template_nums_go_keys_mono (lib : Lib) (sender : TplSender)
    (region cs : String) (gvars : List (String × String)) (cb : Option String)
    (nums : List String) (st : AppState) (k : String)
    (h : k ∈ keys st.delivery) :
    k ∈ keys (send_template_nums_go lib sender region cs gvars cb nums
        st).1.delivery := by
  induction nums generalizing st with
  | nil => exact h
  | cons raw rest ih =>
    by_cases h0 : pyStrip raw = ""
    · simp only [send_template_nums_go, h0, reduceIte]
      exact ih st h
    · cases hn : normalize_to_e164 lib (pyStrip raw) region with
      | error e =>
        simp only [send_template_nums_go, h0, reduceIte, hn]
        exact ih st h
      | ok e164 =>
        cases hs : sender e164 cs gvars cb with
        | ok sid =>
          simp only [send_template_nums_go, h0, reduceIte, hn, hs]
          exact ih _ (keys_setKey_mono _ _ _ _ h)
        | error ex =>
          simp only [send_template_nums_go, h0, reduceIte, hn, hs]
          exact ih _ (keys_setKey_mono _ _ _ _ h)

theorem tpl_bulk_go_keys_mono (lib : Lib) (sender : TplSender)
    (region cs : String) (cb : Option String) (lotes : List Lote)
    (st : AppState) (k : String) (h : k ∈ keys st.delivery) :
    k ∈ keys (tpl_bulk_go lib sender region cs cb lotes st).1.delivery := by
  induction lotes generalizing st with
  | nil => exact h
  | cons lote rest ih =>
    by_cases h0 : pyStrip lote.telefono = ""
    · simp only [tpl_bulk_go, h0, reduceIte]
      exact ih st h
    · cases hn : normalize_to_e164 lib (pyStrip lote.telefono) region with
      | error e =>
        simp only [tpl_bulk_go, h0, reduceIte, hn]
        exact ih st h
      | ok e164 =>
        cases hs : sender e164 cs lote.vars cb with
        | ok sid =>
          simp only [tpl_bulk_go, h0, reduceIte, hn, hs]
          exact ih _ (keys_setKey_mono _ _ _ _ h)
        | error ex =>
          simp only [tpl_bulk_go, h0, reduceIte, hn, hs]
          exact ih _ (keys_setKey_mono _ _ _ _ h)

theorem twilio_status_keys_mono (ev : StatusEvent) (st : AppState) (k : String)
    (h : k ∈ keys st.delivery) : k ∈ keys (twilio_status ev st).delivery := by
  cases hres : resolve_sid st ev.sid with
  | none => simpa [twilio_status, hres] using h
  | some e164 =>
    by_cases he : e164 = ""
    · simpa [twilio_status, hres, he] using h
    · rw [twilio_status_resolved ev st e164 hres he]
      exact keys_setKey_mono _ _ _ _ h

theorem step_sidInv {st st' : AppState} (hstep : Step st st')
    (h : sidInv st.sid_to_number st.delivery) :
    sidInv st'.sid_to_number st'.delivery := by
  cases hstep with
  | send_bulk_step lib sender region pub body nums =>
    by_cases hv : pyStrip body = "" ∨ nums = []
    · simpa [send_bulk, hv] using h
    · simp only [send_bulk, hv, reduceIte]
      exact send_bulk_go_sidInv lib sender region (pyStrip body)
        (status_callback_url pub) nums st h
  | send_template_step lib sender region pub cs gvars nums lotes =>
    by_cases h1 : pyStrip cs = ""
    · simpa [send_template, h1] using h
    · by_cases h2 : lotes = [] ∧ nums = []
      · simpa [send_template, h1, h2] using h
      · by_cases h3 : lotes = []
        · have hnums : ¬ nums = [] := fun hn0 => h2 ⟨h3, hn0⟩
          simp only [send_template, h1, h2, h3, hnums, reduceIte, ne_eq,
            not_true_eq_false, not_false_eq_true, true_and, and_false,
            false_and, and_true]
          exact send_template_nums_go_sidInv lib sender region (pyStrip cs)
            gvars (status_callback_url pub) nums st h
        · simp only [send_template, h1, h2, h3, reduceIte, ne_eq,
            not_true_eq_false, not_false_eq_true]
          exact send_template_lotes_go_sidInv lib sender region (pyStrip cs)
            gvars (status_callback_url pub) lotes st h
  | tpl_bulk_step lib sender region pub cs lotes =>
    by_cases h1 : pyStrip cs = ""
    · simpa [send_template_bulk_personalizado, h1] using h
    · by_cases h2 : lotes = []
      · simpa [send_template_bulk_personalizado, h1, h2] using h
      · simp only [send_template_bulk_personalizado, h1, h2, reduceIte]
        exact tpl_bulk_go_sidInv lib sender region (pyStrip cs)
          (status_callback_url pub) lotes st h
  | status_step ev => exact twilio_status_sidInv ev st h
  | report_step => exact h

theorem step_keys_mono {st st' : AppState} (hstep : Step st st') (k : String)
    (h : k ∈ keys st.delivery) : k ∈ keys st'.delivery := by
  cases hstep with
  | send_bulk_step lib sender region pub body nums =>
    by_cases hv : pyStrip body = "" ∨ nums = []
    · simpa [send_bulk, hv] using h
    · simp only [send_bulk, hv, reduceIte]
      exact send_bulk_go_keys_mono lib sender region (pyStrip body)
        (status_callback_url pub) nums st k h
  | send_template_step lib sender region pub cs gvars nums lotes =>
    by_cases h1 : pyStrip cs = ""
    · simpa [send_template, h1] using h
    · by_cases h2 : lotes = [] ∧ nums = []
      · simpa [send_template, h1, h2] using h
      · by_cases h3 : lotes = []
        · have hnums : ¬ nums = [] := fun hn0 => h2 ⟨h3, hn0⟩
          simp only [send_template, h1, h2, h3, hnums, reduceIte, ne_eq,
            not_true_eq_false, not_false_eq_true, true_and, and_false,
            false_and, and_true]
          exact send_template_nums_go_keys_mono lib sender region (pyStrip cs)
            gvars (status_callback_url pub) nums st k h
        · simp only [send_template, h1, h2, h3, reduceIte, ne_eq,
            not_true_eq_false, not_false_eq_true]
          exact send_template_lotes_go_keys_mono lib sender region (pyStrip cs)
            gvars (status_callback_url pub) lotes st k h
  | tpl_bulk_step lib sender region pub cs lotes =>
    by_cases h1 : pyStrip cs = ""
    · simpa [send_template_bulk_personalizado, h1] using h
    · by_cases h2 : lotes = []
      · simpa [send_template_bulk_personalizado, h1, h2] using h
      · simp only [send_template_bulk_personalizado, h1, h2, reduceIte]
        exact tpl_bulk_go_keys_mono lib sender region (pyStrip cs)
          (status_callback_url pub) lotes st k h
  | status_step ev => exact twilio_status_keys_mono ev st k h
  | report_step => exact h

theorem reachable_sidInv (st : AppState) (h : Reachable st) :
    sidInv st.sid_to_number st.delivery := by
  induction h with
  | init =>
    intro p hp
    simp [initState] at hp
  | step hr hs ih => exact step_sidInv hs ih

/-- Claim C10: in every reachable state, every canonical address stored as a
value of the SidIndex is a key of the delivery ledger (a sid mapping is only
ever created together with the ledger entry for the same address), and no
request — dispatch endpoint, status event, or report — ever removes a ledger
key. -/
theorem C10_sid_index_invariant :
    (∀ st : AppState, Reachable st → sidInv st.sid_to_number st.delivery)
    ∧ (∀ st st' : AppState, Step st st' → ∀ k, k ∈ keys st.delivery →
        k ∈ keys st'.delivery) :=
  ⟨reachable_sidInv, fun _ _ hstep k h => step_keys_mono hstep k h⟩

/-- Witness for C10 at a concrete reachable state (one successful
`/send-bulk`), followed by one status-event step. -/
theorem C10_witness :
    sidInv stAfterSend.sid_to_number stAfterSend.delivery
    ∧ "+526142249654" ∈ keys (twilio_status evM1Delivered stAfterSend).delivery :=
  ⟨C10_sid_index_invariant.1 stAfterSend
      (Reachable.step Reachable.init
        (Step.send_bulk_step phonelibMX textSenderM1 "MX" "" "hola"
          ["6142249654"] initState)),
    C10_sid_index_invariant.2 stAfterSend _
      (Step.status_step evM1Delivered stAfterSend) "+526142249654" (by decide)⟩
